import Mathlib

/-!
Shallow embedding of the R-Mlops-pipeline inference servers
(`flask_model_server.py`, `model_server.py`, `seldon_model.py`)
and proofs about the request normalizer, inference invoker,
error mapping and health checks.

JSON values are modelled with rational numbers for numerics; the
worker process (the R script run via `subprocess.run`) is modelled by
its observable result: timeout, or exit with a return code, a stdout
that either parses to a result object or not, and a stderr string.
-/

/-- JSON values as produced by `request.get_json()` / `json.loads`.
Numbers are rationals; objects are ordered association lists (Python
dicts have unique keys; lookup takes the first match). -/
inductive Json where
  | null : Json
  | bool : Bool → Json
  | num : ℚ → Json
  | str : String → Json
  | arr : List Json → Json
  | obj : List (String × Json) → Json

/-- First value bound to key `k` in an association list. -/
def lookupField (k : String) : List (String × Json) → Option Json
  | [] => none
  | (k', v) :: rest => if k' = k then some v else lookupField k rest

/-- Lookup `d[k]` on a JSON object; `none` when the value is not an object or
the key is absent (Python would raise). -/
def Json.lookup : Json → String → Option Json
  | .obj fs, k => lookupField k fs
  | _, _ => none

/-- Python `k in d` for an object `d` (key membership). The embedding
uses field presence; claims about records quantify over objects. -/
def Json.hasField (j : Json) (k : String) : Bool :=
  (j.lookup k).isSome

/-- Indexing `xs[0]` on a JSON array; `none` when empty or not an array. -/
def Json.first : Json → Option Json
  | .arr (x :: _) => some x
  | _ => none

/-- View a JSON value as a list of elements (arrays only). -/
def Json.asArr : Json → Option (List Json)
  | .arr xs => some xs
  | _ => none

/-- Python truthiness of a JSON value, as used by `if not data`. -/
def Json.isFalsy : Json → Bool
  | .null => true
  | .bool b => !b
  | .num q => q == 0
  | .str s => s.isEmpty
  | .arr xs => xs.isEmpty
  | .obj fs => fs.isEmpty

/-- The fixed 5-field schema shared by all three servers
(`feature_names` in each file). -/
def feature_names : List String :=
  ["age", "income", "education", "experience", "credit_score"]

/-- Python `dict(zip(feature_names, values))`: positional mapping of a value
row onto the fixed field names; `zip` truncates to the shorter list. -/
def zipRecord (values : List Json) : Json :=
  .obj (feature_names.zip values)

/-- The result object the R worker writes to stdout:
`list(probability=…, prediction=…, confidence=…)`. -/
structure PredictionResult where
  probability : ℚ
  prediction : String
  confidence : ℚ
deriving DecidableEq

/-- The R routine `predict_loan` (identical in
`flask_model_server.py` lines 34-57, `model_server.py` lines 48-71 and
inlined in `seldon_model.py` lines 50-61), abstracted over the model's
"approved"-class probability `prob_approved`:
`prediction = ifelse(prob_approved > 0.5, "approved", "denied")`,
`confidence = abs(prob_approved - 0.5) * 2`. -/
def predict_loan (prob_approved : ℚ) : PredictionResult :=
  { probability := prob_approved
  , prediction := if prob_approved > 1/2 then "approved" else "denied"
  , confidence := |prob_approved - 1/2| * 2 }

/-- The worker's stdout after `json.loads(process.stdout.strip())`:
either it parses to a result object or it is malformed text. -/
inductive RawOutput where
  | parsed (r : PredictionResult)
  | malformed (raw : String)
deriving DecidableEq

/-- Observable result of `subprocess.run([Rscript, …], timeout=30)`:
either `subprocess.TimeoutExpired` is raised, or the process exits
with a return code, stdout and stderr. -/
inductive ProcResult where
  | timeout
  | exited (returncode : Int) (stdout : RawOutput) (stderr : String)
deriving DecidableEq

/-- A worker invocation that did not produce a usable result: timed
out, exited non-zero, or printed unparseable output. -/
def ProcResult.isFailure : ProcResult → Bool
  | .timeout => true
  | .exited rc out _ =>
    rc != 0 || (match out with | .malformed _ => true | .parsed _ => false)

/-! ## flask_model_server.py -/

/-- Body of a Flask response: `{"error": msg}` or the success envelope
`{"predictions": [{…result…, "input": inst}], "model_name", …}`. -/
inductive RespBody where
  | err (msg : String)
  | preds (r : PredictionResult) (inst : Json)

/-- An HTTP response: status code and JSON body. -/
structure Response where
  status : Nat
  body : RespBody

/-- Whether a response body is the `{"error": …}` shape (as opposed
to the success envelope). -/
def RespBody.isErr : RespBody → Bool
  | .err _ => true
  | .preds _ _ => false

/-- Whether the pattern occurs at the start of the second list. -/
def charsStartWith : (pat l : List Char) → Bool
  | [], _ => true
  | _ :: _, [] => false
  | p :: ps, c :: cs => p == c && charsStartWith ps cs

/-- Whether the pattern occurs anywhere in the second list (Python's
substring test for `in` on strings). -/
def charsContain (pat : List Char) : List Char → Bool
  | [] => charsStartWith pat []
  | c :: cs => charsStartWith pat (c :: cs) || charsContain pat cs

/-- Python `k in v` for an arbitrary JSON value `v`: key membership on
dicts, element membership on lists (string elements compare equal to
`k`), substring test on strings; `none` models the `TypeError` Python
raises on numbers, booleans and `None`. -/
def pyContains (v : Json) (k : String) : Option Bool :=
  match v with
  | .obj fs => some ((Json.obj fs).hasField k)
  | .arr xs => some (xs.any fun x =>
      match x with | .str s => s == k | _ => false)
  | .str s => some (charsContain k.toList s.toList)
  | _ => none

/-- Input-shape resolution in `predict` (`flask_model_server.py`
lines 103-116): `instances` envelope first, then `data` (with or
without `ndarray`), else the body itself. `none` marks the paths where
Python raises — a `TypeError` from `in` on a number/boolean/null, a
`TypeError` from indexing `['ndarray']`/`[0]` on a non-dict/non-array,
an `IndexError` on an empty sequence — all of which the outer handler
turns into a 500. -/
def resolveRecord (data : Json) : Option Json :=
  match pyContains data "instances" with
  | none => none
  | some true => (data.lookup "instances").bind Json.first
  | some false =>
    match pyContains data "data" with
    | none => none
    | some true =>
      (data.lookup "data").bind fun d =>
        match pyContains d "ndarray" with
        | none => none
        | some true =>
          ((d.lookup "ndarray").bind Json.first).bind fun row =>
            row.asArr.map zipRecord
        | some false => some d
    | some false => some data

/-- The validation loop shared by `flask_model_server.py` lines
120-123 and `model_server.py` lines 115-118: the first name in
`feature_names` not present in the record. -/
def firstMissingFeature (inst : Json) : Option String :=
  feature_names.find? (fun f => ! inst.hasField f)

/-- The R-invocation section of `predict` (`flask_model_server.py`
lines 126-166): timeout → 504, non-zero exit → 500 carrying stderr,
undecodable stdout → 500, else the 200 success envelope. -/
def flaskInvoke (inst : Json) (proc : ProcResult) : Response :=
  match proc with
  | .timeout => ⟨504, .err "Prediction timeout"⟩
  | .exited rc out stderr =>
    if rc ≠ 0 then ⟨500, .err ("R prediction failed: " ++ stderr)⟩
    else
      match out with
      | .malformed _ => ⟨500, .err "Invalid JSON from R script"⟩
      | .parsed r => ⟨200, .preds r inst⟩

/-- Validation then invocation (`flask_model_server.py` lines
120-166). -/
def flaskValidateAndInvoke (inst : Json) (proc : ProcResult) : Response :=
  match firstMissingFeature inst with
  | some f => ⟨400, .err ("Missing required feature: " ++ f)⟩
  | none => flaskInvoke inst proc

/-- The whole `predict` handler (`flask_model_server.py` lines
92-170). A falsy body is rejected with 400; a Python exception during
shape resolution reaches the outer handler, which answers 500 with
`{"error": str(e)}` (the literal text of `str(e)` is not modelled; no
claim depends on it). -/
def flaskPredict (body : Json) (proc : ProcResult) : Response :=
  if body.isFalsy then ⟨400, .err "No JSON data provided"⟩
  else
    match resolveRecord body with
    | none => ⟨500, .err "internal exception"⟩
    | some inst => flaskValidateAndInvoke inst proc

/-- The `health` endpoint (`flask_model_server.py` lines 66-90): a
fresh `os.path.exists` check of the model artifact on every query. -/
def flaskHealth (artifactExists : Bool) : Nat × String :=
  if artifactExists then (200, "healthy") else (503, "unhealthy")

/-! ## seldon_model.py (`LoanApprovalModel`) -/

/-- Inputs `LoanApprovalModel.predict` can receive: a 1-D numpy
array, a 2-D numpy array (list of rows), a plain Python list (which
passes the `isinstance` check but has no `.shape`, so `len(X.shape)`
raises `AttributeError`), or anything else (dict, scalar, …). -/
inductive SeldonInput where
  | ndarray1 (values : List ℚ)
  | ndarray2 (rows : List (List ℚ))
  | pylist (values : List ℚ)
  | unsupported

/-- Input handling in `LoanApprovalModel.predict` (`seldon_model.py`
lines 79-90): build `dict(zip(feature_names, values))` from the 1-D
array or the first row of a 2-D array. `.error` marks the raising
paths (`AttributeError` on a plain list's `.shape`, `IndexError` on an
empty first axis, `ValueError("Unsupported input format")`), all caught
by the outer `except`. -/
def seldonResolveInput : SeldonInput → Except String Json
  | .ndarray1 vs => .ok (zipRecord (vs.map Json.num))
  | .ndarray2 [] => .error "IndexError"
  | .ndarray2 (row :: _) => .ok (zipRecord (row.map Json.num))
  | .pylist _ => .error "AttributeError: list object has no attribute shape"
  | .unsupported => .error "Unsupported input format"

/-- The inner `try` around the R call (`seldon_model.py` lines
95-124): non-zero exit, timeout and any parse error all return the
default class-probability array `[[0.5, 0.5]]`; success returns
`[[1 - p, p]]`. -/
def seldonTryR (proc : ProcResult) : List (List ℚ) :=
  match proc with
  | .timeout => [[1/2, 1/2]]
  | .exited rc out _ =>
    if rc ≠ 0 then [[1/2, 1/2]]
    else
      match out with
      | .malformed _ => [[1/2, 1/2]]
      | .parsed r => [[1 - r.probability, r.probability]]

/-- Function `LoanApprovalModel.predict` (`seldon_model.py` lines 64-128):
the outer `except` maps every raising path to `[[0.5, 0.5]]`, so the
function is total. -/
def seldonPredict (X : SeldonInput) (proc : ProcResult) : List (List ℚ) :=
  match seldonResolveInput X with
  | .error _ => [[1/2, 1/2]]
  | .ok _ => seldonTryR proc

/-- The condition under which `LoanApprovalModel.predict` reaches its
success return: input resolved, worker exited 0, stdout parsed. -/
def seldonSuccess (X : SeldonInput) (proc : ProcResult) : Option PredictionResult :=
  match seldonResolveInput X with
  | .error _ => none
  | .ok _ =>
    match proc with
    | .exited rc (.parsed r) _ => if rc = 0 then some r else none
    | _ => none

/-- Function `LoanApprovalModel.health_status` (`seldon_model.py` lines
130-139): a fresh `os.path.exists` check on every query. -/
def seldonHealthStatus (artifactExists : Bool) : String :=
  if artifactExists then "healthy" else "unhealthy"

/-! ## model_server.py (`RModelServer`) -/

/-- Inputs `RModelServer.predict` can receive: a dict, a
list/ndarray, or anything else. -/
inductive RMSInput where
  | dict (fields : List (String × Json))
  | array (values : List Json)
  | unsupportedInput

/-- Typed failures of `RModelServer.predict`; all are caught by the
outer `except` and rendered through `RMSError.message`. -/
inductive RMSError where
  | tooShort
  | unsupported
  | missingFeature (f : String)
  | workerError (stderr : String)
  | timeoutErr
  | malformedOutput (raw : String)

/-- Rendering `str(e)` for each failure. `ValueError` and `RuntimeError`
stringify to their message; for `TimeoutExpired` and `JSONDecodeError`
the exact Python text is not modelled (no claim depends on it). -/
def RMSError.message : RMSError → String
  | .tooShort => "Input array too short"
  | .unsupported => "Unsupported input format"
  | .missingFeature f => "Missing required feature: " ++ f
  | .workerError stderr => "R prediction failed: " ++ stderr
  | .timeoutErr => "subprocess.TimeoutExpired"
  | .malformedOutput _ => "json.JSONDecodeError"

/-- Input-format handling in `RModelServer.predict`
(`model_server.py` lines 104-113): dicts pass through; arrays of at
least 5 elements are truncated to 5 and zipped positionally onto
`feature_names`; shorter arrays raise
`ValueError("Input array too short")`. -/
def rmsResolve : RMSInput → Except RMSError Json
  | .dict fs => .ok (.obj fs)
  | .array vs =>
    if vs.length ≥ feature_names.length then
      .ok (.obj (feature_names.zip (vs.take feature_names.length)))
    else .error .tooShort
  | .unsupportedInput => .error .unsupported

/-- The feature-presence loop (`model_server.py` lines 115-118). -/
def rmsValidate (inst : Json) : Except RMSError Json :=
  match firstMissingFeature inst with
  | some f => .error (.missingFeature f)
  | none => .ok inst

/-- Resolution followed by validation. -/
def rmsNormalize (X : RMSInput) : Except RMSError Json :=
  match rmsResolve X with
  | .error e => .error e
  | .ok inst => rmsValidate inst

/-- The R call inside the `try` (`model_server.py` lines 126-140):
non-zero exit raises `RuntimeError("R prediction failed: " + stderr)`,
timeout raises `TimeoutExpired`, undecodable stdout raises
`JSONDecodeError`; each propagates to the outer `except` (after the
`finally` cleanup). -/
def rmsRunWorker (proc : ProcResult) : Except RMSError PredictionResult :=
  match proc with
  | .timeout => .error .timeoutErr
  | .exited rc out stderr =>
    if rc ≠ 0 then .error (.workerError stderr)
    else
      match out with
      | .malformed raw => .error (.malformedOutput raw)
      | .parsed r => .ok r

/-- The hardcoded `feature_importance` table
(`model_server.py` lines 147-153). -/
def static_feature_importance : List (String × ℚ) :=
  [("age", 1/5), ("income", 3/10), ("education", 3/20),
   ("experience", 3/20), ("credit_score", 1/5)]

/-- The two response dict shapes of `RModelServer.predict`: the
Seldon success envelope, or the catch-all error dict
`{"predictions": [0.0], "prediction_class": "error", "confidence": 0.0,
"error": msg}`. -/
inductive RMSResponse where
  | success (probability : ℚ) (prediction_class : String)
      (confidence : ℚ) (feature_importance : List (String × ℚ))
  | failure (msg : String)

/-- Function `RModelServer.predict` (`model_server.py` lines 87-171) with the
temporary-file effect made explicit: `tmpFiles` is the set of files on
disk, `fname` the name `tempfile.NamedTemporaryFile(delete=False)`
yields for this call. The file is created only after validation
succeeds and is removed by the `finally` block on every outcome before
the outer `except` renders a failure. Returns the response and the
files left on disk. -/
def rmsPredict (tmpFiles : List String) (fname : String) (X : RMSInput)
    (proc : ProcResult) : RMSResponse × List String :=
  match rmsNormalize X with
  | .error e => (.failure e.message, tmpFiles)
  | .ok _ =>
    let files₁ := fname :: tmpFiles
    let outcome := rmsRunWorker proc
    let files₂ := files₁.erase fname
    match outcome with
    | .ok r =>
      (.success r.probability r.prediction r.confidence
        static_feature_importance, files₂)
    | .error e => (.failure e.message, files₂)

/-- Boot-time state of `RModelServer`: the `model_ready` flag. -/
structure RMSState where
  model_ready : Bool

/-- Function `RModelServer.load` (`model_server.py` lines 31-85): stores the R
script string and sets `model_ready = True`; it never consults the
artifact file. -/
def rmsLoad (_s : RMSState) : RMSState := ⟨true⟩

/-- Function `RModelServer.health_status` (`model_server.py` lines 173-181):
reports from the boot-time `model_ready` flag only; the
`artifactExists` argument stands for the artifact file's presence at
query time and is never consulted. -/
def rmsHealthStatus (s : RMSState) (_artifactExists : Bool) : String :=
  if s.model_ready then "healthy" else "loading"

/-! ## Shared sample data and helper lemmas -/

/-- The example feature row from the spec and the README endpoint. -/
def sampleValues : List ℚ := [35, 75000, 16, 10, 750]

/-- The example record with all five fields present. -/
def sampleRecord : List (String × Json) :=
  feature_names.zip (sampleValues.map Json.num)

/-- Body with an `instances` envelope. -/
def bodyInstances : List (String × Json) :=
  [("instances", .arr [.obj sampleRecord])]

/-- Value of the `data` field in an `ndarray` envelope. -/
def dataNdarray : Json :=
  .obj [("ndarray", .arr [.arr (sampleValues.map Json.num)])]

/-- Body with a `data` + `ndarray` envelope. -/
def bodyNdarray : List (String × Json) := [("data", dataNdarray)]

/-- Body with a bare `data` envelope. -/
def bodyData : List (String × Json) := [("data", .obj sampleRecord)]

theorem seldonTryR_of_failure (proc : ProcResult)
    (h : proc.isFailure = true) : seldonTryR proc = [[1/2, 1/2]] := by
  match proc with
  | .timeout => rfl
  | .exited rc (.malformed raw) stderr => simp [seldonTryR]
  | .exited rc (.parsed r) stderr =>
    have hrc : rc ≠ 0 := by simpa [ProcResult.isFailure] using h
    simp [seldonTryR, hrc]

theorem seldonPredict_of_tryR (X : SeldonInput) (proc : ProcResult)
    (h : seldonTryR proc = [[1/2, 1/2]]) :
    seldonPredict X proc = [[1/2, 1/2]] := by
  cases hX : seldonResolveInput X with
  | error e => simp [seldonPredict, hX]
  | ok j => simp [seldonPredict, hX, h]

/-! ## Claims -/

/-- C1: for every approved-class probability `p ∈ [0,1]`, the worker
routine's result has `prediction = "approved"` iff `p > 0.5`, and
`confidence = |p - 0.5| * 2` exactly. -/
theorem C1_predict_loan_label_confidence (p : ℚ) (_h0 : 0 ≤ p) (_h1 : p ≤ 1) :
    ((predict_loan p).prediction = "approved" ↔ p > 1/2) ∧
    (predict_loan p).confidence = |p - 1/2| * 2 := by
  refine ⟨?_, rfl⟩
  by_cases h : p > 1/2
  · simp [predict_loan, h]
  · simp only [predict_loan, if_neg h]
    constructor
    · intro hs; exact absurd hs (by decide)
    · intro hp; exact absurd hp h

/-- Witness for C1 at the spec's end-to-end example `p = 0.82`
(`0.82 = 41/50`, `confidence = 0.64 = 16/25`). -/
theorem C1_witness :
    (0 : ℚ) ≤ 41/50 ∧ (41/50 : ℚ) ≤ 1 ∧
    (((predict_loan (41/50)).prediction = "approved" ↔ (41/50 : ℚ) > 1/2) ∧
      (predict_loan (41/50)).confidence = |(41/50 : ℚ) - 1/2| * 2) :=
  ⟨by norm_num, by norm_num,
    C1_predict_loan_label_confidence (41/50) (by norm_num) (by norm_num)⟩

/-- C2 counterexample: at body `{"data": 5}` the claim predicts the
record is `5` (`data` present, no `ndarray` inside); the server
instead raises `TypeError` at the test `'ndarray' in data['data']`
(membership on an `int`) and answers 500 — no record is resolved. -/
theorem C2_counterexample :
    resolveRecord (.obj [("data", .num 5)]) = none ∧
    (flaskPredict (.obj [("data", .num 5)]) .timeout).status = 500 :=
  ⟨rfl, rfl⟩

/-- C2 amended: for JSON-object bodies the Flask normalizer tries
input shapes in priority order — `instances` (first element), then
`data`, else the whole body — but the `data` branch applies Python's
`'ndarray' in data['data']`: when `data`'s value is a number, boolean
or null that test itself raises `TypeError` and the server answers 500
with no record resolved; when the test is true the record is the first
`ndarray` row zipped positionally onto the 5 field names; when it is
false (an object without the key, a list or string not containing
"ndarray") the record is `data` itself. -/
theorem C2_resolve_priority_amended (fs : List (String × Json)) :
    (∀ x rest, (Json.obj fs).lookup "instances" = some (.arr (x :: rest)) →
      resolveRecord (.obj fs) = some x) ∧
    (∀ d, (Json.obj fs).lookup "instances" = none →
      (Json.obj fs).lookup "data" = some d →
      ((∀ row rest, d.lookup "ndarray" = some (.arr (.arr row :: rest)) →
          resolveRecord (.obj fs) = some (zipRecord row)) ∧
        (pyContains d "ndarray" = some false →
          resolveRecord (.obj fs) = some d) ∧
        (pyContains d "ndarray" = none →
          resolveRecord (.obj fs) = none))) ∧
    ((Json.obj fs).lookup "instances" = none →
      (Json.obj fs).lookup "data" = none →
      resolveRecord (.obj fs) = some (.obj fs)) := by
  refine ⟨?_, ?_, ?_⟩
  · intro x rest h
    simp [resolveRecord, pyContains, Json.hasField, h, Json.first]
  · intro d h1 h2
    have hi : pyContains (.obj fs) "instances" = some false := by
      simp [pyContains, Json.hasField, h1]
    have hd : pyContains (.obj fs) "data" = some true := by
      simp [pyContains, Json.hasField, h2]
    refine ⟨?_, ?_, ?_⟩
    · intro row rest h3
      cases d with
      | obj gs =>
        have hn : pyContains (.obj gs) "ndarray" = some true := by
          simp [pyContains, Json.hasField, h3]
        simp [resolveRecord, hi, hd, h2, hn, h3, Json.first, Json.asArr]
      | null => simp [Json.lookup] at h3
      | bool b => simp [Json.lookup] at h3
      | num q => simp [Json.lookup] at h3
      | str s => simp [Json.lookup] at h3
      | arr xs => simp [Json.lookup] at h3
    · intro h3
      simp [resolveRecord, hi, hd, h2, h3]
    · intro h3
      simp [resolveRecord, hi, hd, h2, h3]
  · intro h1 h2
    simp [resolveRecord, pyContains, Json.hasField, h1, h2]

/-- Witness for C2 amended: one concrete body per shape — an
`instances` envelope, a `data`+`ndarray` envelope, a bare object
`data` envelope, a scalar `data` value (`TypeError` path, no record),
and a direct record. -/
theorem C2_witness :
    resolveRecord (.obj bodyInstances) = some (.obj sampleRecord) ∧
    resolveRecord (.obj bodyNdarray) =
      some (zipRecord (sampleValues.map Json.num)) ∧
    resolveRecord (.obj bodyData) = some (.obj sampleRecord) ∧
    resolveRecord (.obj [("data", .num 5)]) = none ∧
    resolveRecord (.obj sampleRecord) = some (.obj sampleRecord) :=
  ⟨(C2_resolve_priority_amended bodyInstances).1 (.obj sampleRecord) [] rfl,
   ((C2_resolve_priority_amended bodyNdarray).2.1 dataNdarray rfl rfl).1
     (sampleValues.map Json.num) [] rfl,
   ((C2_resolve_priority_amended bodyData).2.1 (.obj sampleRecord)
     rfl rfl).2.1 rfl,
   ((C2_resolve_priority_amended [("data", .num 5)]).2.1 (.num 5)
     rfl rfl).2.2 rfl,
   (C2_resolve_priority_amended sampleRecord).2.2 rfl rfl⟩

/-- C3: a resolved record lacking one of the 5 required fields is
rejected — Flask answers 400 and `RModelServer` answers the failure
dict, both with a message naming a missing field — and no default is
substituted (the invocation is never reached). -/
theorem C3_missing_feature (fs : List (String × Json)) (proc : ProcResult)
    (tmpFiles : List String) (fname : String)
    (hmiss : ∃ f ∈ feature_names, (Json.obj fs).hasField f = false) :
    ∃ f ∈ feature_names, (Json.obj fs).hasField f = false ∧
      flaskValidateAndInvoke (.obj fs) proc =
        ⟨400, .err ("Missing required feature: " ++ f)⟩ ∧
      (rmsPredict tmpFiles fname (.dict fs) proc).1 =
        .failure ("Missing required feature: " ++ f) := by
  obtain ⟨g, hg, hgf⟩ := hmiss
  have hfind : ∃ f, firstMissingFeature (.obj fs) = some f := by
    cases hfound : firstMissingFeature (.obj fs) with
    | some f => exact ⟨f, rfl⟩
    | none =>
      exfalso
      have := List.find?_eq_none.mp hfound g hg
      simp [hgf] at this
  obtain ⟨f, hf⟩ := hfind
  refine ⟨f, List.mem_of_find?_eq_some hf, ?_, ?_, ?_⟩
  · have := List.find?_some hf
    simpa using this
  · simp [flaskValidateAndInvoke, hf]
  · simp [rmsPredict, rmsNormalize, rmsResolve, rmsValidate, hf,
      RMSError.message]

/-- Witness for C3: a record carrying only `age` is rejected by both
servers with a message naming a missing field. -/
theorem C3_witness :
    ∃ f ∈ feature_names, (Json.obj [("age", Json.num 35)]).hasField f = false ∧
      flaskValidateAndInvoke (.obj [("age", Json.num 35)]) .timeout =
        ⟨400, .err ("Missing required feature: " ++ f)⟩ ∧
      (rmsPredict [] "tmp.json" (.dict [("age", Json.num 35)]) .timeout).1 =
        .failure ("Missing required feature: " ++ f) :=
  C3_missing_feature [("age", Json.num 35)] .timeout [] "tmp.json"
    ⟨"income", by decide, rfl⟩

/-- C4 counterexample: in `LoanApprovalModel.predict` a timeout is
answered with `[[0.5, 0.5]]` — byte-for-byte the same value a genuine
worker prediction with probability 0.5 produces — so an invocation
failure is surfaced as a normal-looking prediction result, not as a
5xx-equivalent structured error. -/
theorem C4_counterexample :
    seldonPredict (.ndarray1 sampleValues) .timeout =
      seldonPredict (.ndarray1 sampleValues)
        (.exited 0 (.parsed (predict_loan (1/2))) "") ∧
    seldonPredict (.ndarray1 sampleValues) .timeout = [[1/2, 1/2]] := by
  constructor
  · show [[(1:ℚ)/2, 1/2]] = [[1 - (1:ℚ)/2, 1/2]]
    norm_num
  · rfl

/-- C4 amended: in the Flask server every invocation failure is
surfaced as a 5xx structured error (504 or 500 with an `error` body),
never a predictions envelope, and both handlers are total functions of
the observed worker result (every raising path is caught), so no
failure propagates or crashes the process; in the Seldon model-class
adapter, however, every failure is returned as the normal-looking
default class-probability array `[[0.5, 0.5]]`. -/
theorem C4_amended (inst : Json) (proc : ProcResult)
    (hfail : proc.isFailure = true) :
    ((flaskInvoke inst proc).status = 504 ∨
      (flaskInvoke inst proc).status = 500) ∧
    (flaskInvoke inst proc).body.isErr = true ∧
    (∀ X, seldonPredict X proc = [[1/2, 1/2]]) := by
  have hseldon : ∀ X, seldonPredict X proc = [[1/2, 1/2]] := fun X =>
    seldonPredict_of_tryR X proc (seldonTryR_of_failure proc hfail)
  refine ⟨?_, ?_, hseldon⟩ <;>
  · match proc with
    | .timeout => simp [flaskInvoke, RespBody.isErr]
    | .exited rc (.malformed raw) stderr =>
      by_cases h : rc = 0 <;> simp [flaskInvoke, h, RespBody.isErr]
    | .exited rc (.parsed r) stderr =>
      have hrc : rc ≠ 0 := by simpa [ProcResult.isFailure] using hfail
      simp [flaskInvoke, hrc, RespBody.isErr]

/-- Witness for C4 amended, at a concrete timeout. -/
theorem C4_witness :
    ((flaskInvoke (.obj sampleRecord) .timeout).status = 504 ∨
      (flaskInvoke (.obj sampleRecord) .timeout).status = 500) ∧
    (flaskInvoke (.obj sampleRecord) .timeout).body.isErr = true ∧
    seldonPredict (.ndarray2 []) .timeout = [[1/2, 1/2]] :=
  ⟨(C4_amended (.obj sampleRecord) .timeout rfl).1,
   (C4_amended (.obj sampleRecord) .timeout rfl).2.1,
   (C4_amended (.obj sampleRecord) .timeout rfl).2.2 (.ndarray2 [])⟩

/-- C5 counterexample: in `LoanApprovalModel.predict` a timeout
produces exactly the same value as a worker crash with malformed
output — `[[0.5, 0.5]]` — so the invoker does not return a distinct
timeout-specific failure. -/
theorem C5_counterexample :
    seldonPredict (.ndarray1 sampleValues) .timeout =
      seldonPredict (.ndarray1 sampleValues)
        (.exited 1 (.malformed "junk") "crash") ∧
    seldonPredict (.ndarray1 sampleValues) .timeout = [[1/2, 1/2]] := by
  constructor <;> rfl

/-- C5 amended: in the Flask server a worker timeout is answered with
the distinct 504 "Prediction timeout" response, and no other worker
outcome produces a 504; in the Seldon model-class adapter the timeout
is caught but mapped to the same default array `[[0.5, 0.5]]` as every
other failure. (Process termination itself is `subprocess.run`'s
documented behaviour on timeout, outside this embedding.) -/
theorem C5_amended (inst : Json) (proc : ProcResult)
    (hproc : proc ≠ .timeout) :
    flaskInvoke inst .timeout = ⟨504, .err "Prediction timeout"⟩ ∧
    (flaskInvoke inst proc).status ≠ 504 ∧
    (∀ X, seldonPredict X .timeout = [[1/2, 1/2]]) := by
  refine ⟨rfl, ?_, fun X => seldonPredict_of_tryR X .timeout rfl⟩
  match proc with
  | .timeout => exact absurd rfl hproc
  | .exited rc (.malformed raw) stderr =>
    by_cases h : rc = 0 <;> simp [flaskInvoke, h]
  | .exited rc (.parsed r) stderr =>
    by_cases h : rc = 0 <;> simp [flaskInvoke, h]

/-- Witness for C5 amended, distinguishing a timeout from a clean
exit. -/
theorem C5_witness :
    flaskInvoke (.obj sampleRecord) .timeout =
      ⟨504, .err "Prediction timeout"⟩ ∧
    (flaskInvoke (.obj sampleRecord)
      (.exited 0 (.parsed (predict_loan (41/50))) "")).status ≠ 504 ∧
    seldonPredict (.ndarray1 sampleValues) .timeout = [[1/2, 1/2]] :=
  ⟨(C5_amended (.obj sampleRecord) (.exited 0 (.parsed (predict_loan (41/50))) "")
      (by simp)).1,
   (C5_amended (.obj sampleRecord) (.exited 0 (.parsed (predict_loan (41/50))) "")
      (by simp)).2.1,
   (C5_amended (.obj sampleRecord) (.exited 0 (.parsed (predict_loan (41/50))) "")
      (by simp)).2.2 (.ndarray1 sampleValues)⟩

/-- C6 counterexample: in `LoanApprovalModel.predict` a non-zero
worker exit produces the bare default array, identical for two
different stderr diagnostics — the caller never receives the worker's
stderr, and no WorkerError message is returned at all. -/
theorem C6_counterexample :
    seldonPredict (.ndarray1 sampleValues)
        (.exited 1 (.malformed "") "diagnostic A") =
      seldonPredict (.ndarray1 sampleValues)
        (.exited 1 (.malformed "") "diagnostic B") ∧
    seldonPredict (.ndarray1 sampleValues)
        (.exited 1 (.malformed "") "diagnostic A") = [[1/2, 1/2]] ∧
    ("diagnostic A" : String) ≠ "diagnostic B" := by
  refine ⟨rfl, rfl, by decide⟩

/-- C6 amended: on a non-zero worker exit the Flask server answers
500 with `"R prediction failed: " ++ stderr` and `RModelServer`
returns the failure dict with the same stderr-carrying message; the
Seldon model-class adapter instead swallows the stderr and returns the
default array. -/
theorem C6_amended (inst : Json) (rc : Int) (out : RawOutput)
    (stderr : String) (tmpFiles : List String) (fname : String)
    (X' : RMSInput) (j : Json) (hrc : rc ≠ 0)
    (hok : rmsNormalize X' = .ok j) :
    flaskInvoke inst (.exited rc out stderr) =
      ⟨500, .err ("R prediction failed: " ++ stderr)⟩ ∧
    (rmsPredict tmpFiles fname X' (.exited rc out stderr)).1 =
      .failure ("R prediction failed: " ++ stderr) ∧
    (∀ X, seldonPredict X (.exited rc out stderr) = [[1/2, 1/2]]) := by
  refine ⟨?_, ?_, ?_⟩
  · simp [flaskInvoke, hrc]
  · simp [rmsPredict, hok, rmsRunWorker, hrc, RMSError.message]
  · intro X
    refine seldonPredict_of_tryR X _ (seldonTryR_of_failure _ ?_)
    simp [ProcResult.isFailure, hrc]

/-- Witness for C6 amended, at a concrete crash with stderr text. -/
theorem C6_witness :
    flaskInvoke (.obj sampleRecord) (.exited 1 (.malformed "") "rf crashed") =
      ⟨500, .err ("R prediction failed: " ++ "rf crashed")⟩ ∧
    (rmsPredict [] "tmp.json" (.dict sampleRecord)
      (.exited 1 (.malformed "") "rf crashed")).1 =
      .failure ("R prediction failed: " ++ "rf crashed") ∧
    seldonPredict (.ndarray1 sampleValues)
      (.exited 1 (.malformed "") "rf crashed") = [[1/2, 1/2]] :=
  ⟨(C6_amended (.obj sampleRecord) 1 (.malformed "") "rf crashed" [] "tmp.json"
      (.dict sampleRecord) (.obj sampleRecord) (by decide) rfl).1,
   (C6_amended (.obj sampleRecord) 1 (.malformed "") "rf crashed" [] "tmp.json"
      (.dict sampleRecord) (.obj sampleRecord) (by decide) rfl).2.1,
   (C6_amended (.obj sampleRecord) 1 (.malformed "") "rf crashed" [] "tmp.json"
      (.dict sampleRecord) (.obj sampleRecord) (by decide) rfl).2.2
     (.ndarray1 sampleValues)⟩

/-- C7 counterexample: `RModelServer.health_status` reports from the
boot-time `model_ready` flag; after `load()`, a query made while the
artifact file is absent still reports "healthy", so readiness is not
computed from the file at query time and deleting the file does not
make the next query unhealthy. -/
theorem C7_counterexample :
    rmsHealthStatus (rmsLoad ⟨false⟩) false = "healthy" ∧
    rmsHealthStatus (rmsLoad ⟨false⟩) true =
      rmsHealthStatus (rmsLoad ⟨false⟩) false :=
  ⟨rfl, rfl⟩

/-- C7 amended: the Flask `health` endpoint and
`LoanApprovalModel.health_status` do check the artifact file on every
query — they report healthy (and Flask answers 200) exactly when the
file exists at that moment, so deletion/restoration is reflected with
no restart; `RModelServer.health_status`, however, reports from the
boot-time `model_ready` flag and never consults the file. -/
theorem C7_amended :
    (∀ e : Bool,
      ((flaskHealth e).2 = "healthy" ↔ e = true) ∧
      ((flaskHealth e).1 = 200 ↔ e = true) ∧
      (seldonHealthStatus e = "healthy" ↔ e = true)) ∧
    (∀ s : RMSState, ∀ e₁ e₂ : Bool,
      rmsHealthStatus s e₁ = rmsHealthStatus s e₂) := by
  constructor
  · intro e
    cases e <;> decide
  · intro s e₁ e₂
    rfl

/-- C8 counterexample: in the Flask `ndarray` path a 2-element row is
not rejected with an insufficient-length error; it is zipped onto the
first two field names and then rejected by the field check with
"Missing required feature: education" — a missing-field error, not
`ValidationError{insufficient_length}`. -/
theorem C8_counterexample :
    flaskPredict (.obj [("data", .obj [("ndarray",
        .arr [.arr [.num 35, .num 75000]])])]) .timeout =
      ⟨400, .err "Missing required feature: education"⟩ ∧
    ("Missing required feature: education" : String) ≠
      "Input array too short" := by
  exact ⟨rfl, by decide⟩

/-- C8 amended: array-form input is mapped positionally (index 0→age,
1→income, 2→education, 3→experience, 4→credit_score) in both
`RModelServer.predict` and the Flask `ndarray` path;
`RModelServer.predict` rejects arrays shorter than 5 with
"Input array too short", while the Flask `ndarray` path reports a
missing-field validation error naming the first unmapped field. -/
theorem C8_positional_mapping (a b c d e : Json) (vs : List Json)
    (proc : ProcResult) (hshort : vs.length < 5) :
    rmsResolve (.array [a, b, c, d, e]) =
      .ok (.obj [("age", a), ("income", b), ("education", c),
        ("experience", d), ("credit_score", e)]) ∧
    resolveRecord (.obj [("data", .obj [("ndarray",
        .arr [.arr [a, b, c, d, e]])])]) =
      some (.obj [("age", a), ("income", b), ("education", c),
        ("experience", d), ("credit_score", e)]) ∧
    (rmsNormalize (.array vs) = .error .tooShort ∧
      RMSError.message .tooShort = "Input array too short") ∧
    (∀ x y : Json, flaskPredict (.obj [("data", .obj [("ndarray",
        .arr [.arr [x, y]])])]) proc =
      ⟨400, .err "Missing required feature: education"⟩) := by
  refine ⟨rfl, rfl, ⟨?_, rfl⟩, fun x y => rfl⟩
  have hlt : ¬ (vs.length ≥ feature_names.length) := by
    have h5 : feature_names.length = 5 := rfl
    omega
  simp [rmsNormalize, rmsResolve, hlt]

/-- Witness for C8 amended, at the spec's example row and a
2-element row. -/
theorem C8_witness :
    rmsResolve (.array (sampleValues.map Json.num)) =
      .ok (.obj [("age", .num 35), ("income", .num 75000),
        ("education", .num 16), ("experience", .num 10),
        ("credit_score", .num 750)]) ∧
    rmsNormalize (.array [.num 35, .num 75000]) = .error .tooShort ∧
    flaskPredict (.obj [("data", .obj [("ndarray",
        .arr [.arr [.num 35, .num 75000]])])]) .timeout =
      ⟨400, .err "Missing required feature: education"⟩ :=
  ⟨(C8_positional_mapping (.num 35) (.num 75000) (.num 16) (.num 10)
      (.num 750) [.num 35, .num 75000] .timeout (by decide)).1,
   (C8_positional_mapping (.num 35) (.num 75000) (.num 16) (.num 10)
      (.num 750) [.num 35, .num 75000] .timeout (by decide)).2.2.1.1,
   (C8_positional_mapping (.num 35) (.num 75000) (.num 16) (.num 10)
      (.num 750) [.num 35, .num 75000] .timeout (by decide)).2.2.2
     (.num 35) (.num 75000)⟩

/-- C9: the temporary input file `RModelServer.predict` creates is
removed by the `finally` block on every outcome — success, worker
non-zero exit, timeout, malformed output — so the set of files on
disk after the call equals the set before it. (Records are JSON
values here, so serialization itself cannot fail.) -/
theorem C9_tempfile_cleanup (tmpFiles : List String) (fname : String)
    (X : RMSInput) (proc : ProcResult) :
    (rmsPredict tmpFiles fname X proc).2 = tmpFiles := by
  cases hN : rmsNormalize X with
  | error e => simp [rmsPredict, hN]
  | ok j =>
    cases hW : rmsRunWorker proc with
    | ok r => simp [rmsPredict, hN, hW, List.erase_cons_head]
    | error e => simp [rmsPredict, hN, hW, List.erase_cons_head]

/-- C10: `LoanApprovalModel.predict` is total over all modelled
inputs and worker results (every raising path is caught) and always
returns a 1-by-2 class-probability array: `[[1 - p, p]]` when the
input resolves, the worker exits 0 and its output parses with
probability `p`, and the constant `[[0.5, 0.5]]` on every failure —
a value indistinguishable from a genuine maximally-uncertain
prediction. -/
theorem C10_seldon_default_array (X : SeldonInput) (proc : ProcResult) :
    ((seldonPredict X proc).length = 1 ∧
      ∀ row ∈ seldonPredict X proc, row.length = 2) ∧
    (∀ r, seldonSuccess X proc = some r →
      seldonPredict X proc = [[1 - r.probability, r.probability]]) ∧
    (seldonSuccess X proc = none →
      seldonPredict X proc = [[1/2, 1/2]]) := by
  cases hX : seldonResolveInput X with
  | error e => simp [seldonPredict, seldonSuccess, hX]
  | ok j =>
    match proc with
    | .timeout => simp [seldonPredict, seldonSuccess, hX, seldonTryR]
    | .exited rc (.malformed raw) stderr =>
      simp [seldonPredict, seldonSuccess, hX, seldonTryR]
    | .exited rc (.parsed r) stderr =>
      by_cases h : rc = 0
      · subst h
        simp [seldonPredict, seldonSuccess, hX, seldonTryR]
      · simp [seldonPredict, seldonSuccess, hX, seldonTryR, h]

/-- Witness for C10: a successful worker result at `p = 0.82` yields
`[[0.18, 0.82]]`, and a timeout yields `[[0.5, 0.5]]`. -/
theorem C10_witness :
    seldonPredict (.ndarray1 sampleValues)
        (.exited 0 (.parsed (predict_loan (41/50))) "") =
      [[1 - (predict_loan (41/50)).probability,
        (predict_loan (41/50)).probability]] ∧
    seldonPredict (.ndarray1 sampleValues) .timeout = [[1/2, 1/2]] :=
  ⟨(C10_seldon_default_array (.ndarray1 sampleValues)
      (.exited 0 (.parsed (predict_loan (41/50))) "")).2.1
      (predict_loan (41/50)) rfl,
   (C10_seldon_default_array (.ndarray1 sampleValues) .timeout).2.2 rfl⟩
